import Mathlib

/-!
Shallow embedding of the `if-reliability` tool (Go), covering the liveness
monitor (`pingInterface`), the WiFi associator (`connectToWiFi`), the route
manager (`replaceRoute`), and the orchestrator (`rootCmd.Run`) of `main.go`.

External effects (the `ping`, `nmcli`, `ip route` commands) are supplied as
oracle inputs: each probe outcome is a `Bool` (true iff `pingIP` returned a
value other than -1), each default-route query is a `PollEvent`, and each OS
command that can fail is an `Except String Unit`.
-/

namespace IfReliability

/-- Model of Go `strings.Split(s, sep)` for a one-character separator,
working on the character list: splitting the empty list yields one empty
field, and every occurrence of the separator starts a new field. -/
def splitChar (sep : Char) : List Char → List (List Char)
  | [] => [[]]
  | c :: cs =>
    let r := splitChar sep cs
    if c = sep then [] :: r
    else
      match r with
      | [] => [[c]]
      | h :: t => (c :: h) :: t

/-- Model of Go `strings.Split(s, sep)` on strings, one-character separator. -/
def goSplit (sep : Char) (s : String) : List String :=
  (splitChar sep s.data).map String.mk

/-! ## Liveness Monitor (`pingInterface`, part_000 lines 74-98)

The Go loop sleeps one second, probes the endpoint, resets the failure
counter on success, increments it on failure, and returns -1 as soon as
`failures >= retry`.  The probe outcomes are the oracle list `probes`
(true iff the probe was reachable, i.e. `pingIP` did not return -1).
The embedding returns `some k` when the loop returns -1 after consuming
`k` probes, and `none` when the oracle list is exhausted with the loop
still running (the Go loop is unbounded). -/

def pingInterfaceAux (retry : Int) (failures : Int) : List Bool → Option Nat
  | [] => none
  | ok :: rest =>
    if ok then
      (pingInterfaceAux retry 0 rest).map (· + 1)
    else if retry ≤ failures + 1 then some 1
    else (pingInterfaceAux retry (failures + 1) rest).map (· + 1)

/-- The monitor entry point: failure counter starts at 0. The `endpoint`
string only feeds the probe command and the log lines, so it is not a
parameter of the embedding; `retry` is the Go `int` threshold. -/
def pingInterface (retry : Int) (probes : List Bool) : Option Nat :=
  pingInterfaceAux retry 0 probes

/-- One step of the failure counter, exactly the two branches of the Go
loop body: reset to 0 on a reachable probe, increment on an unreachable
one. -/
def failStep (acc : Int) (ok : Bool) : Int :=
  if ok then 0 else acc + 1

/-- The failure counter after processing a probe sequence, starting at
`f`. -/
def failCountFrom (f : Int) (l : List Bool) : Int :=
  l.foldl failStep f

/-- The failure counter after processing a probe sequence from 0, as the
Go loop maintains it. -/
def failCount (l : List Bool) : Int :=
  failCountFrom 0 l

/-- The length of the trailing run of unreachable probes of a sequence. -/
def trailingFailures (l : List Bool) : Nat :=
  (l.reverse.takeWhile (fun b => !b)).length

theorem failCountFrom_cons (f : Int) (b : Bool) (l : List Bool) :
    failCountFrom f (b :: l) = failCountFrom (failStep f b) l := rfl

theorem failCountFrom_nonneg (f : Int) (l : List Bool) (hf : 0 ≤ f) :
    0 ≤ failCountFrom f l := by
  induction l generalizing f with
  | nil => exact hf
  | cons b t ih =>
    rw [failCountFrom_cons]
    apply ih
    unfold failStep
    split <;> omega

theorem failCount_append_single (l : List Bool) (b : Bool) :
    failCount (l ++ [b]) = if b then 0 else failCount l + 1 := by
  unfold failCount failCountFrom
  rw [List.foldl_append]
  rfl

theorem failCount_eq_trailingFailures (l : List Bool) :
    failCount l = (trailingFailures l : Int) := by
  induction l using List.reverseRecOn with
  | nil => rfl
  | append_singleton l b ih =>
    rw [failCount_append_single]
    have hrev : (l ++ [b]).reverse = b :: l.reverse := by simp
    unfold trailingFailures
    rw [hrev]
    cases b with
    | false =>
      rw [if_neg (by simp)]
      have htw : List.takeWhile (fun b => !b) (false :: l.reverse)
          = false :: List.takeWhile (fun b => !b) l.reverse := by
        simp [List.takeWhile_cons]
      rw [htw, List.length_cons]
      unfold trailingFailures at ih
      push_cast
      omega
    | true =>
      simp [List.takeWhile_cons]

theorem pingInterfaceAux_eq_some_iff (t : Int) (ht : 1 ≤ t) :
    ∀ (probes : List Bool) (f : Int), 0 ≤ f → f < t → ∀ k : Nat,
      (pingInterfaceAux t f probes = some k ↔
        (k ≤ probes.length ∧ failCountFrom f (probes.take k) = t ∧
          ∀ j : Nat, j < k → failCountFrom f (probes.take j) < t)) := by
  intro probes
  induction probes with
  | nil =>
    intro f hf0 hft k
    constructor
    · intro h
      simp [pingInterfaceAux] at h
    · rintro ⟨hk, he, _⟩
      simp only [List.take_nil, failCountFrom, List.foldl_nil] at he
      omega
  | cons b rest ih =>
    intro f hf0 hft k
    cases b with
    | true =>
      have hstep : failStep f true = 0 := rfl
      constructor
      · intro h
        simp only [pingInterfaceAux, if_pos] at h
        rw [Option.map_eq_some'] at h
        obtain ⟨k', hk', rfl⟩ := h
        have := (ih 0 le_rfl (by omega) k').mp hk'
        obtain ⟨hlen, heq, hlt⟩ := this
        refine ⟨by simpa using hlen, ?_, ?_⟩
        · rw [List.take_succ_cons, failCountFrom_cons, hstep]
          exact heq
        · intro j hj
          cases j with
          | zero => simpa [failCountFrom] using hft
          | succ j' =>
            rw [List.take_succ_cons, failCountFrom_cons, hstep]
            exact hlt j' (by omega)
      · rintro ⟨hlen, heq, hlt⟩
        cases k with
        | zero =>
          simp only [List.take_zero] at heq
          simp only [failCountFrom, List.foldl_nil] at heq
          omega
        | succ k' =>
          rw [List.take_succ_cons, failCountFrom_cons, hstep] at heq
          simp only [pingInterfaceAux, if_pos]
          rw [Option.map_eq_some']
          refine ⟨k', ?_, rfl⟩
          rw [ih 0 le_rfl (by omega) k']
          refine ⟨by simpa using hlen, heq, ?_⟩
          intro j hj
          have := hlt (j + 1) (by omega)
          rw [List.take_succ_cons, failCountFrom_cons, hstep] at this
          exact this
    | false =>
      have hstep : failStep f false = f + 1 := rfl
      by_cases hth : t ≤ f + 1
      · have hft1 : f + 1 = t := by omega
        constructor
        · intro h
          simp only [pingInterfaceAux, if_neg Bool.false_ne_true, if_pos hth] at h
          have hk1 : k = 1 := by
            have := Option.some.inj h
            omega
          subst hk1
          refine ⟨by simp, ?_, ?_⟩
          · rw [List.take_succ_cons, List.take_zero, failCountFrom_cons, hstep]
            simpa [failCountFrom] using hft1
          · intro j hj
            interval_cases j
            simpa [failCountFrom] using hft
        · rintro ⟨hlen, heq, hlt⟩
          cases k with
          | zero =>
            simp only [List.take_zero, failCountFrom, List.foldl_nil] at heq
            omega
          | succ k' =>
            cases k' with
            | zero =>
              simp [pingInterfaceAux, hth]
            | succ k'' =>
              exfalso
              have := hlt 1 (by omega)
              rw [List.take_succ_cons, List.take_zero, failCountFrom_cons, hstep] at this
              simp only [failCountFrom, List.foldl_nil] at this
              omega
      · push_neg at hth
        constructor
        · intro h
          simp only [pingInterfaceAux, if_neg Bool.false_ne_true,
            if_neg (by omega : ¬ t ≤ f + 1)] at h
          rw [Option.map_eq_some'] at h
          obtain ⟨k', hk', rfl⟩ := h
          have := (ih (f + 1) (by omega) (by omega) k').mp hk'
          obtain ⟨hlen, heq, hlt⟩ := this
          refine ⟨by simpa using hlen, ?_, ?_⟩
          · rw [List.take_succ_cons, failCountFrom_cons, hstep]
            exact heq
          · intro j hj
            cases j with
            | zero => simpa [failCountFrom] using hft
            | succ j' =>
              rw [List.take_succ_cons, failCountFrom_cons, hstep]
              exact hlt j' (by omega)
        · rintro ⟨hlen, heq, hlt⟩
          cases k with
          | zero =>
            simp only [List.take_zero, failCountFrom, List.foldl_nil] at heq
            omega
          | succ k' =>
            rw [List.take_succ_cons, failCountFrom_cons, hstep] at heq
            simp only [pingInterfaceAux, if_neg Bool.false_ne_true,
              if_neg (by omega : ¬ t ≤ f + 1)]
            rw [Option.map_eq_some']
            refine ⟨k', ?_, rfl⟩
            rw [ih (f + 1) (by omega) (by omega) k']
            refine ⟨by simpa using hlen, heq, ?_⟩
            intro j hj
            have := hlt (j + 1) (by omega)
            rw [List.take_succ_cons, failCountFrom_cons, hstep] at this
            exact this

/-! ## Network Associator (`connectToWiFi`, part_000 lines 101-124)

The join command (`nmcli ... connect ...`) either fails with an error or
succeeds; afterwards the Go loop queries `ip route show default dev <if>`
once per second.  Each query either fails as a command (`queryErr msg`,
upon which the Go code logs the error and returns `("", nil)`), or exits 0
with some text output together with the oracle answer for pinging the
extracted gateway (`queryOk output reachable`).  The gateway is extracted
as `strings.Split(output, " ")[2]`, an unchecked index: when the split has
fewer than three fields the Go program panics with an index-out-of-range
runtime error, modelled by `WifiResult.panicked`. -/

inductive PollEvent where
  | queryErr : String → PollEvent
  | queryOk : String → Bool → PollEvent
deriving DecidableEq

inductive WifiResult where
  | err : String → WifiResult
  | success : String → WifiResult
  | panicked : WifiResult
  | running : WifiResult
deriving DecidableEq

/-- The gateway-polling loop of `connectToWiFi`: on a failed query it
returns `("", nil)` (modelled `success ""`), on a successful query it
indexes field 2 of the space-split output (panicking when absent), pings
it, returns it when reachable and iterates otherwise.  `running` marks an
exhausted oracle (the Go loop would still be iterating). -/
def pollGateway : List PollEvent → WifiResult
  | [] => WifiResult.running
  | PollEvent.queryErr _ :: _ => WifiResult.success ""
  | PollEvent.queryOk out reach :: rest =>
    let toks := goSplit ' ' out
    if h : 2 < toks.length then
      if reach then WifiResult.success (toks.get ⟨2, h⟩) else pollGateway rest
    else WifiResult.panicked

/-- Model of `connectToWiFi`: the join command result gates the polling
loop; a join failure is returned immediately. -/
def connectToWiFi (join : Except String Unit) (polls : List PollEvent) : WifiResult :=
  match join with
  | Except.error e => WifiResult.err e
  | Except.ok _ => pollGateway polls

/-- Whether some poll event is a successful default-route query. -/
def hasQueryOk (polls : List PollEvent) : Bool :=
  polls.any (fun e =>
    match e with
    | PollEvent.queryOk _ _ => true
    | _ => false)

/-- Whether some poll event is a failed default-route query command. -/
def hasQueryErr (polls : List PollEvent) : Bool :=
  polls.any (fun e =>
    match e with
    | PollEvent.queryErr _ => true
    | _ => false)

/-- Whether `gw` appears as the third space-delimited field of some
successful query output whose subsequent probe was reachable. -/
def observedReachable (polls : List PollEvent) (gw : String) : Bool :=
  polls.any (fun e =>
    match e with
    | PollEvent.queryOk out true => (goSplit ' ' out)[2]? == some gw
    | _ => false)

/-! ## Route Manager (`replaceRoute`, part_000 lines 128-154)

IPv4 addresses are lists of four byte values.  `parseIP` models the IPv4
dotted-quad path of Go `net.ParseIP` (the tool probes IPv4 endpoints;
each field is 1-3 digits, no leading zero, value at most 255, exactly
four fields).  `CIDRMask` models `net.CIDRMask` for 32-bit masks: it
yields no mask when the prefix length is negative or exceeds the bit
width.  `ipMask` models `net.IP.Mask`, which yields the nil IP on a
length mismatch (in particular for a nil mask); the nil IP renders as
`<nil>`, exactly as `fmt.Sprintf` renders a nil `net.IP`. -/

/-- Decimal digit character, for rendering byte values and prefixes. -/
def digitChar : Nat → Char
  | 0 => '0'
  | 1 => '1'
  | 2 => '2'
  | 3 => '3'
  | 4 => '4'
  | 5 => '5'
  | 6 => '6'
  | 7 => '7'
  | 8 => '8'
  | _ => '9'

/-- Decimal digits of `n`, most significant first; the first argument is
fuel, always called with `n + 1` which suffices. -/
def natDigits : Nat → Nat → List Nat
  | 0, _ => []
  | fuel + 1, n => if n < 10 then [n] else natDigits fuel (n / 10) ++ [n % 10]

/-- Decimal rendering of a natural number, as Go `%d`. -/
def natToString (n : Nat) : String :=
  String.mk ((natDigits (n + 1) n).map digitChar)

/-- Decimal rendering of a Go `int`, as Go `%d`. -/
def intToString : Int → String
  | Int.ofNat n => natToString n
  | Int.negSucc n => String.mk ('-' :: (natToString (n + 1)).data)

/-- Field of a dotted-quad IPv4 literal: 1-3 decimal digits, no leading
zero, value at most 255 (the `net.ParseIP` field rules). -/
def fieldToByte (cs : List Char) : Option Nat :=
  if cs.length = 0 then none
  else if 3 < cs.length then none
  else if cs.all Char.isDigit then
    if 1 < cs.length ∧ cs.head? = some '0' then none
    else
      let v := cs.foldl (fun a c => a * 10 + (c.toNat - 48)) 0
      if v ≤ 255 then some v else none
  else none

/-- Model of `net.ParseIP` on IPv4 dotted-quad literals: four fields
separated by dots, each a valid byte field. -/
def parseIP (s : String) : Option (List Nat) :=
  match splitChar '.' s.data with
  | [a, b, c, d] =>
    match fieldToByte a, fieldToByte b, fieldToByte c, fieldToByte d with
    | some x, some y, some z, some w => some [x, y, z, w]
    | _, _, _, _ => none
  | _ => none

/-- Mask bytes of `net.CIDRMask`: each byte takes up to eight leading one
bits from the remaining count `n`. -/
def maskBytesAux (n : Nat) : Nat → List Nat
  | 0 => []
  | l + 1 =>
    if 8 ≤ n then 255 :: maskBytesAux (n - 8) l
    else (255 - 255 / 2 ^ n) :: maskBytesAux 0 l

/-- Model of `net.CIDRMask ones bits`: no mask when `bits` is not an IPv4
or IPv6 width, or when `ones` lies outside `0..bits`. -/
def CIDRMask (ones : Int) (bits : Nat) : Option (List Nat) :=
  if bits ≠ 32 ∧ bits ≠ 128 then none
  else if ones < 0 ∨ (bits : Int) < ones then none
  else some (maskBytesAux ones.toNat (bits / 8))

/-- Bitwise AND of two bytes (values below 256), as Go `ip[i] & mask[i]`. -/
def byteAnd (fuel : Nat) (a b : Nat) : Nat :=
  match fuel with
  | 0 => 0
  | fuel + 1 =>
    (if a % 2 = 1 ∧ b % 2 = 1 then 1 else 0) + 2 * byteAnd fuel (a / 2) (b / 2)

/-- Model of `net.IP.Mask`: bytewise AND, nil on length mismatch (hence
nil whenever the mask is nil). -/
def ipMask (ip : List Nat) (mask : Option (List Nat)) : Option (List Nat) :=
  match mask with
  | none => none
  | some m =>
    if ip.length = m.length then some (List.zipWith (byteAnd 8) ip m) else none

/-- Rendering of a (possibly nil) IP as Go `fmt` renders `net.IP`: the
nil IP prints `<nil>`, a 4-byte IP prints as a dotted quad. -/
def ipToString : Option (List Nat) → String
  | none => "<nil>"
  | some bs => String.intercalate "." (bs.map natToString)

/-- Result of one `replaceRoute` call: the returned error value, whether
the `ip route replace` command was executed, and the destination CIDR
string it was executed with (none when validation failed first). -/
structure RouteCall where
  result : Except String Unit
  cmdExecuted : Bool
  cidr : Option String

/-- Model of `replaceRoute`: parse the address (validation error on
failure, before any OS mutation), mask it with the prefix, render the
CIDR, then execute `ip route replace <cidr> via <router> dev <ifname>`
whose outcome is the oracle `osRoute`; `e` stands for the combined error
and output text that the Go code formats into its message. -/
def replaceRoute (ipv4 : String) (cidrMask : Int) (ifname : String)
    (router : String) (osRoute : Except String Unit) : RouteCall :=
  match parseIP ipv4 with
  | none => ⟨Except.error ("invalid IP address: " ++ ipv4), false, none⟩
  | some ip =>
    let mask := CIDRMask cidrMask 32
    let network := ipMask ip mask
    let cidr := ipToString network ++ "/" ++ intToString cidrMask
    match osRoute with
    | Except.error e => ⟨Except.error ("failed to replace route: " ++ e), true, some cidr⟩
    | Except.ok _ => ⟨Except.ok (), true, some cidr⟩

/-! ## Failover Orchestrator (`rootCmd.Run`, part_000 lines 160-186)

The Go `Run` reads the configuration flags, then: runs `pingInterface`
on the endpoint, calls `connectToWiFi` and exits with status 1 on error,
calls `replaceRoute(endPoint, 24, wifiIF, router)` discarding its
returned error, and runs `pingInterface` again; when the second monitor
returns, `Run` ends and the process exits with status 0.  Note two
details taken directly from the source: the `retry` flag (an `int` flag)
is read with `GetString`, a type mismatch whose error is discarded and
whose empty result is only logged, and both `pingInterface` calls receive
the literal `5`. -/

structure RunEnv where
  retryFlag : Int
  primaryProbes : List Bool
  joinCmd : Except String Unit
  polls : List PollEvent
  routeCmd : Except String Unit
  secondaryProbes : List Bool

inductive RunOutcome where
  | running : RunOutcome
  | panicked : RunOutcome
  | exited : Nat → RunOutcome
deriving DecidableEq

/-- Observable result of one orchestrator run: final outcome, the
threshold passed to each monitor invocation (none when not invoked),
whether `replaceRoute` was called, whether its OS command was executed,
and whether the post-failover monitoring phase was entered. -/
structure RunResult where
  outcome : RunOutcome
  primaryThreshold : Option Int
  secondaryThreshold : Option Int
  routeManagerInvoked : Bool
  routeCmdExecuted : Bool
  secondaryMonitorEntered : Bool

/-- Model of `rootCmd.Run`.  `env.retryFlag` is the configured value of
the `retry` flag; as in the source it does not reach `pingInterface`. -/
def rootCmdRun (endPoint wifiIF : String) (env : RunEnv) : RunResult :=
  match pingInterface 5 env.primaryProbes with
  | none => ⟨RunOutcome.running, some 5, none, false, false, false⟩
  | some _ =>
    match connectToWiFi env.joinCmd env.polls with
    | WifiResult.err _ => ⟨RunOutcome.exited 1, some 5, none, false, false, false⟩
    | WifiResult.panicked => ⟨RunOutcome.panicked, some 5, none, false, false, false⟩
    | WifiResult.running => ⟨RunOutcome.running, some 5, none, false, false, false⟩
    | WifiResult.success router =>
      let rr := replaceRoute endPoint 24 wifiIF router env.routeCmd
      match pingInterface 5 env.secondaryProbes with
      | none => ⟨RunOutcome.running, some 5, some 5, true, rr.cmdExecuted, true⟩
      | some _ => ⟨RunOutcome.exited 0, some 5, some 5, true, rr.cmdExecuted, true⟩

/-! ## Claim theorems -/

/-- C1: for every threshold `t ≥ 1` and probe sequence, `pingInterface`
returns Down exactly when the trailing run of consecutive unreachable
probes reaches `t`: the failure count equals the length of the trailing
failure run, a reachable probe resets it to 0 and an unreachable probe
increments it, and the monitor returns after exactly `k` probes iff the
count first reaches `t` there (so on the `t`-th consecutive failure, not
earlier). -/
theorem pingInterface_down_iff_trailing_run (t : Int) (ht : 1 ≤ t)
    (probes : List Bool) :
    (∀ l : List Bool, failCount l = (trailingFailures l : Int)) ∧
    (∀ (l : List Bool) (b : Bool),
      failCount (l ++ [b]) = if b then 0 else failCount l + 1) ∧
    (∀ k : Nat, pingInterface t probes = some k ↔
      (k ≤ probes.length ∧ failCount (probes.take k) = t ∧
        ∀ j : Nat, j < k → failCount (probes.take j) < t)) := by
  refine ⟨failCount_eq_trailingFailures, failCount_append_single, fun k => ?_⟩
  exact pingInterfaceAux_eq_some_iff t ht probes 0 le_rfl (by omega) k

/-- C1 witness: threshold 5, five consecutive unreachable probes, Down is
returned exactly on the fifth. -/
theorem pingInterface_down_iff_trailing_run_witness :
    (1 : Int) ≤ 5 ∧ pingInterface 5 [false, false, false, false, false] = some 5 := by
  refine ⟨by norm_num, ?_⟩
  exact ((pingInterface_down_iff_trailing_run 5 (by norm_num)
    [false, false, false, false, false]).2.2 5).mpr (by decide)

/-- C3 (divergence evaluated on the code): with the join successful, a
default-route query that exits 0 with empty output (no default route yet)
makes the associator panic on the index-2 field access instead of
treating the iteration as not-yet-associated; and a failed query command
terminates the polling loop with an empty gateway and no error instead of
continuing to poll. -/
theorem connectToWiFi_missing_route_not_retried :
    connectToWiFi (Except.ok ()) [PollEvent.queryOk "" false] = WifiResult.panicked ∧
    connectToWiFi (Except.ok ())
        [PollEvent.queryErr "exit status 1",
          PollEvent.queryOk "default via 10.0.0.1 dev wlan0" true]
      = WifiResult.success "" := by
  exact ⟨rfl, rfl⟩

/-- C10: extracting the gateway as the third space-delimited field is an
out-of-bounds access whenever the query output splits into fewer than
three fields: the polling iteration panics rather than retrying. -/
theorem pollGateway_short_output_panics (out : String) (reach : Bool)
    (rest : List PollEvent) (h : (goSplit ' ' out).length < 3) :
    pollGateway (PollEvent.queryOk out reach :: rest) = WifiResult.panicked ∧
    connectToWiFi (Except.ok ()) (PollEvent.queryOk out reach :: rest)
      = WifiResult.panicked := by
  have hp : pollGateway (PollEvent.queryOk out reach :: rest) = WifiResult.panicked := by
    simp only [pollGateway]
    rw [dif_neg (by omega)]
  exact ⟨hp, hp⟩

/-- C10 witness: the empty output (successful query, no default route)
splits into one field and the iteration panics. -/
theorem pollGateway_short_output_panics_witness :
    (goSplit ' ' "empty").length < 3 ∧
    pollGateway [PollEvent.queryOk "empty" true] = WifiResult.panicked := by
  exact ⟨by decide, (pollGateway_short_output_panics "empty" true [] (by decide)).1⟩

/-- C8 counterexample: when the default-route query command fails, the
associator returns success with the empty string as gateway although no
query ever reported a default route and nothing was probed reachable —
refuting the claim that every success value was first observed in a
default-route query and probed reachable. -/
theorem connectToWiFi_success_without_observation :
    connectToWiFi (Except.ok ()) [PollEvent.queryErr "exit status 2"]
      = WifiResult.success "" ∧
    hasQueryOk [PollEvent.queryErr "exit status 2"] = false ∧
    observedReachable [PollEvent.queryErr "exit status 2"] "" = false := by
  exact ⟨rfl, rfl, rfl⟩

theorem hasQueryErr_cons (e : PollEvent) (rest : List PollEvent) :
    hasQueryErr (e :: rest)
      = ((match e with
          | PollEvent.queryErr _ => true
          | _ => false) || hasQueryErr rest) := rfl

theorem observedReachable_cons (e : PollEvent) (rest : List PollEvent) (gw : String) :
    observedReachable (e :: rest) gw
      = ((match e with
          | PollEvent.queryOk out true => (goSplit ' ' out)[2]? == some gw
          | _ => false) || observedReachable rest gw) := rfl

theorem pollGateway_success_cases (polls : List PollEvent) (gw : String)
    (h : pollGateway polls = WifiResult.success gw) :
    (gw = "" ∧ hasQueryErr polls = true) ∨ observedReachable polls gw = true := by
  induction polls with
  | nil => simp [pollGateway] at h
  | cons e rest ih =>
    cases e with
    | queryErr msg =>
      left
      simp only [pollGateway, WifiResult.success.injEq] at h
      exact ⟨h.symm, by rw [hasQueryErr_cons]; simp⟩
    | queryOk out reach =>
      simp only [pollGateway] at h
      by_cases h3 : 2 < (goSplit ' ' out).length
      · rw [dif_pos h3] at h
        by_cases hr : reach = true
        · rw [if_pos hr] at h
          subst hr
          injection h with hh
          right
          rw [observedReachable_cons]
          have hsome : (goSplit ' ' out)[2]? = some gw := by
            rw [List.getElem?_eq_getElem h3, ← hh]
            simp [List.get_eq_getElem]
          simp [hsome]
        · rw [if_neg hr] at h
          rw [Bool.not_eq_true] at hr
          subst hr
          rcases ih h with ⟨hgw, herr⟩ | hobs
          · exact Or.inl ⟨hgw, by rw [hasQueryErr_cons]; simp [herr]⟩
          · right
            rw [observedReachable_cons]
            simp [hobs]
      · rw [dif_neg h3] at h
        exact absurd h (by simp)

/-- C8 amended: every value the associator returns as success is either
the empty string produced by a failed default-route query command (which
ends polling immediately with no error and no probe), or a gateway that
was observed as the third space-delimited field of a successful query
output and then probed reachable; and a gateway observed but unreachable
causes polling to continue with the remaining iterations. -/
theorem connectToWiFi_success_characterization :
    (∀ (join : Except String Unit) (polls : List PollEvent) (gw : String),
      connectToWiFi join polls = WifiResult.success gw →
      (gw = "" ∧ hasQueryErr polls = true) ∨ observedReachable polls gw = true) ∧
    (∀ (out : String) (rest : List PollEvent), 2 < (goSplit ' ' out).length →
      pollGateway (PollEvent.queryOk out false :: rest) = pollGateway rest) := by
  constructor
  · intro join polls gw h
    cases join with
    | error e => exact absurd h (by simp [connectToWiFi])
    | ok u => exact pollGateway_success_cases polls gw h
  · intro out rest h3
    simp only [pollGateway]
    rw [dif_pos h3, if_neg (by simp)]

/-- C8 witness: a reachable gateway observed in a query output is
returned and is characterized as observed-and-reachable; an unreachable
one makes the loop continue. -/
theorem connectToWiFi_success_characterization_witness :
    ((("192.168.1.1" : String) = "" ∧
        hasQueryErr [PollEvent.queryOk "default via 192.168.1.1 dev wlan0" true] = true) ∨
      observedReachable [PollEvent.queryOk "default via 192.168.1.1 dev wlan0" true]
        "192.168.1.1" = true) ∧
    pollGateway [PollEvent.queryOk "a b c" false] = pollGateway [] := by
  refine ⟨(connectToWiFi_success_characterization.1 (Except.ok ())
    [PollEvent.queryOk "default via 192.168.1.1 dev wlan0" true] "192.168.1.1" (by decide)),
    connectToWiFi_success_characterization.2 "a b c" [] (by decide)⟩

/-- C5: route computation is a deterministic function of endpoint and
prefix length: the computed CIDR does not depend on the OS outcome and
is identical across repeated calls, it is the endpoint masked with the
prefix, and endpoint 8.8.8.8 with prefix length 24 yields 8.8.8.0/24. -/
theorem replaceRoute_cidr_deterministic (s : String) (ip : List Nat) (n : Int)
    (ifname router : String) (os1 os2 : Except String Unit)
    (hparse : parseIP s = some ip) :
    (replaceRoute s n ifname router os1).cidr = (replaceRoute s n ifname router os2).cidr ∧
    (replaceRoute s n ifname router os1).cidr
      = some (ipToString (ipMask ip (CIDRMask n 32)) ++ "/" ++ intToString n) ∧
    (replaceRoute "8.8.8.8" 24 ifname router os1).cidr = some "8.8.8.0/24" := by
  refine ⟨?_, ?_, ?_⟩
  · simp only [replaceRoute, hparse]
    cases os1 <;> cases os2 <;> rfl
  · simp only [replaceRoute, hparse]
    cases os1 <;> rfl
  · cases os1 <;> rfl

/-- C5 witness: the concrete endpoint 8.8.8.8 with prefix 24. -/
theorem replaceRoute_cidr_deterministic_witness :
    parseIP "8.8.8.8" = some [8, 8, 8, 8] ∧
    (replaceRoute "8.8.8.8" 24 "wlan0" "192.168.1.1" (Except.ok ())).cidr
      = some "8.8.8.0/24" := by
  refine ⟨by decide, ?_⟩
  exact (replaceRoute_cidr_deterministic "8.8.8.8" [8, 8, 8, 8] 24 "wlan0" "192.168.1.1"
    (Except.ok ()) (Except.error "e") (by decide)).2.2

/-- C7: an unparsable endpoint address makes `replaceRoute` return the
validation error before any OS route mutation: the route command is not
executed. -/
theorem replaceRoute_invalid_ip_no_mutation (s : String) (n : Int)
    (ifname router : String) (os : Except String Unit) (h : parseIP s = none) :
    (replaceRoute s n ifname router os).cmdExecuted = false ∧
    (replaceRoute s n ifname router os).result
      = Except.error ("invalid IP address: " ++ s) := by
  constructor
  · simp [replaceRoute, h]
  · simp [replaceRoute, h]

/-- C7 witness: the address 999.999.999.999 fails validation and no
route command is executed. -/
theorem replaceRoute_invalid_ip_no_mutation_witness :
    parseIP "999.999.999.999" = none ∧
    (replaceRoute "999.999.999.999" 24 "wlan0" "192.168.1.1"
      (Except.ok ())).cmdExecuted = false := by
  refine ⟨by decide, ?_⟩
  exact (replaceRoute_invalid_ip_no_mutation "999.999.999.999" 24 "wlan0" "192.168.1.1"
    (Except.ok ()) (by decide)).1

/-- C9 counterexample: with the valid endpoint 8.8.8.8 and prefix length
40 (outside 0-32), `replaceRoute` does not return a validation error: the
OS route command is executed with destination `<nil>/40`, and when the OS
accepts it the call even succeeds. -/
theorem replaceRoute_prefix_40_executes_command :
    (replaceRoute "8.8.8.8" 40 "wlan0" "192.168.1.1" (Except.ok ())).cmdExecuted = true ∧
    (replaceRoute "8.8.8.8" 40 "wlan0" "192.168.1.1" (Except.ok ())).result
      = Except.ok () ∧
    (replaceRoute "8.8.8.8" 40 "wlan0" "192.168.1.1" (Except.ok ())).cidr
      = some "<nil>/40" := by
  exact ⟨rfl, rfl, rfl⟩

theorem CIDRMask_out_of_range (n : Int) (hn : n < 0 ∨ 32 < n) :
    CIDRMask n 32 = none := by
  unfold CIDRMask
  rw [if_neg (by simp), if_pos (by exact_mod_cast hn)]

/-- C9 amended: `replaceRoute` performs no prefix-length validation.  For
every parsable endpoint and every prefix length outside 0-32, the mask is
nil, the network renders as `<nil>`, and the OS route command is still
executed with destination `<nil>/<prefix>`; the call fails only when the
OS command fails. -/
theorem replaceRoute_no_prefix_validation (s : String) (ip : List Nat) (n : Int)
    (ifname router : String) (os : Except String Unit)
    (hparse : parseIP s = some ip) (hn : n < 0 ∨ 32 < n) :
    (replaceRoute s n ifname router os).cmdExecuted = true ∧
    (replaceRoute s n ifname router os).cidr = some ("<nil>/" ++ intToString n) ∧
    (os = Except.ok () → (replaceRoute s n ifname router os).result = Except.ok ()) := by
  have hmask : CIDRMask n 32 = none := CIDRMask_out_of_range n hn
  simp only [replaceRoute, hparse, hmask, ipMask, ipToString]
  cases os with
  | error e => exact ⟨rfl, rfl, fun hc => absurd hc (by simp)⟩
  | ok u => exact ⟨rfl, rfl, fun _ => rfl⟩

/-- C9 amended witness: prefix length 33 on endpoint 8.8.8.8. -/
theorem replaceRoute_no_prefix_validation_witness :
    parseIP "8.8.8.8" = some [8, 8, 8, 8] ∧ ((33 : Int) < 0 ∨ (32 : Int) < 33) ∧
    (replaceRoute "8.8.8.8" 33 "wlan0" "192.168.1.1" (Except.ok ())).cmdExecuted = true := by
  refine ⟨by decide, by norm_num, ?_⟩
  exact (replaceRoute_no_prefix_validation "8.8.8.8" [8, 8, 8, 8] 33 "wlan0" "192.168.1.1"
    (Except.ok ()) (by decide) (by norm_num)).1

/-- C2 (divergence evaluated on the code): when `replaceRoute` fails —
whether the OS rejects the route change or the endpoint fails validation
— the orchestrator does not transition to a failed state: the returned
error is discarded, the post-failover monitoring phase is entered, and
the process exits with status 0. -/
theorem rootCmdRun_ignores_replaceRoute_failure :
    (replaceRoute "8.8.8.8" 24 "wlan0" "192.168.1.1"
        (Except.error "RTNETLINK answers: operation not permitted")).result
      = Except.error "failed to replace route: RTNETLINK answers: operation not permitted" ∧
    rootCmdRun "8.8.8.8" "wlan0"
        ⟨5, [false, false, false, false, false], Except.ok (),
          [PollEvent.queryOk "default via 192.168.1.1 dev wlan0" true],
          Except.error "RTNETLINK answers: operation not permitted",
          [false, false, false, false, false]⟩
      = ⟨RunOutcome.exited 0, some 5, some 5, true, true, true⟩ ∧
    rootCmdRun "999.999.999.999" "wlan0"
        ⟨5, [false, false, false, false, false], Except.ok (),
          [PollEvent.queryOk "default via 192.168.1.1 dev wlan0" true],
          Except.ok (), [false, false, false, false, false]⟩
      = ⟨RunOutcome.exited 0, some 5, some 5, true, false, true⟩ := by
  exact ⟨rfl, rfl, rfl⟩

/-- C4 (divergence evaluated on the code): the monitor threshold is the
literal 5, not the configured retry value: with `retry` configured to 3
and three consecutive unreachable probes the monitor keeps running (no
Down), although a monitor run with threshold 3 would return Down on the
third probe; the threshold recorded for the invocation is 5. -/
theorem rootCmdRun_threshold_hardcoded :
    (rootCmdRun "8.8.8.8" "wlan0"
        ⟨3, [false, false, false], Except.ok (), [], Except.ok (), []⟩).primaryThreshold
      = some 5 ∧
    (rootCmdRun "8.8.8.8" "wlan0"
        ⟨3, [false, false, false], Except.ok (), [], Except.ok (), []⟩).outcome
      = RunOutcome.running ∧
    pingInterface 3 [false, false, false] = some 3 := by
  exact ⟨rfl, rfl, rfl⟩

/-- C6: when the WiFi join command fails, the associator returns the
error immediately (for every polling oracle, so without any retry), and
the orchestrator exits with status 1 without invoking the route manager
or entering the post-failover monitoring phase. -/
theorem rootCmdRun_join_failure_aborts (e endPoint wifiIF : String) (env : RunEnv)
    (hjoin : env.joinCmd = Except.error e)
    (hprim : (pingInterface 5 env.primaryProbes).isSome = true) :
    connectToWiFi env.joinCmd env.polls = WifiResult.err e ∧
    rootCmdRun endPoint wifiIF env
      = ⟨RunOutcome.exited 1, some 5, none, false, false, false⟩ := by
  have hw : connectToWiFi env.joinCmd env.polls = WifiResult.err e := by
    rw [hjoin]
    rfl
  refine ⟨hw, ?_⟩
  unfold rootCmdRun
  cases hp : pingInterface 5 env.primaryProbes with
  | none => rw [hp] at hprim; simp at hprim
  | some k => rw [hw]

/-- C6 witness: a failed join with a healthy-looking environment
otherwise; the run exits 1 and never reaches the route manager. -/
theorem rootCmdRun_join_failure_aborts_witness :
    (pingInterface 5 [false, false, false, false, false]).isSome = true ∧
    rootCmdRun "8.8.8.8" "wlan0"
        ⟨5, [false, false, false, false, false],
          Except.error "Error: Connection activation failed", [], Except.ok (), []⟩
      = ⟨RunOutcome.exited 1, some 5, none, false, false, false⟩ := by
  refine ⟨by decide, ?_⟩
  exact (rootCmdRun_join_failure_aborts "Error: Connection activation failed" "8.8.8.8"
    "wlan0"
    ⟨5, [false, false, false, false, false],
      Except.error "Error: Connection activation failed", [], Except.ok (), []⟩
    rfl (by decide)).2

end IfReliability
